import Mathlib

/-!
Verification of the wallet risk scoring engine (`app.py`, class
`ImprovedWalletRiskScorer`).

The engine is embedded shallowly over `ℚ`: Python floats become exact
rationals, epoch timestamps become `ℤ` (seconds), and the `datetime`
subtraction `(a - b).days` becomes floor division of the second difference
by 86400.  The one feature whose exact value is an irrational square root,
`volume_volatility = np.std(tx_values)`, is passed to the extractor as a
parameter `vstd` constrained by the predicate `StdSpec` (nonnegative square
root of the population variance); every claim that touches it is evaluated
at inputs where the standard deviation is exactly `0`.  The pseudo-random
perturbation of the inactive branch (`np.random.normal(0, 0.05)` seeded from
`hash(str(eth_balance))`) is represented by an explicit parameter
`variation`, since its defining process (a salted string hash feeding a
Mersenne-Twister normal draw) has no exact arithmetic description.
Exceptions of the fetch stages are modelled as `Except` values fed to the
orchestrator.
-/

namespace WalletRisk

/-- Result of `get_wallet_basic_info`: ETH balance, lifetime transaction
count, and the activity flag computed there as
`total_tx_count > 0 and eth_balance > 0`. -/
structure BasicInfo where
  eth_balance : ℚ
  total_tx_count : ℚ
  is_active : Bool
  deriving DecidableEq

/-- A classified transaction record: the fields of the (already classified)
Etherscan record that `extract_comprehensive_features` reads.  `timeStamp`
is epoch seconds, `valueWei` is the integer wei value, `isError` is the
record's `'isError' == '1'` flag. -/
structure Tx where
  timeStamp : ℤ
  valueWei : ℤ
  isError : Bool
  is_compound : Bool
  is_defi : Bool
  deriving DecidableEq

/-- Conversion `int(tx['value']) / 10**18` from wei to ETH. -/
def weiToEth (v : ℤ) : ℚ := (v : ℚ) / 10 ^ 18

/-- The list `tx_values` of ETH values of the fetched transactions. -/
def txValues (txs : List Tx) : List ℚ := txs.map (fun t => weiToEth t.valueWei)

/-- Earliest timestamp of a transaction list (Python `min(tx_times)`; the
code only evaluates it on nonempty lists, the `[]` case is a junk value). -/
def minTimestamp : List Tx → ℤ
  | [] => 0
  | t :: ts => ts.foldl (fun a x => min a x.timeStamp) t.timeStamp

/-- Latest timestamp of a transaction list (Python `max(tx_times)`). -/
def maxTimestamp : List Tx → ℤ
  | [] => 0
  | t :: ts => ts.foldl (fun a x => max a x.timeStamp) t.timeStamp

/-- Largest ETH value of a transaction list (Python `max(tx_values)`). -/
def maxValue (txs : List Tx) : ℚ :=
  match txValues txs with
  | [] => 0
  | v :: vs => vs.foldl max v

/-- Python `timedelta.days`: the floor of the difference in seconds divided
by 86400. -/
def daysBetween (now t : ℤ) : ℤ := (now - t).fdiv 86400

/-- Population variance of a list of rationals; `np.std(tx_values)` is its
square root.  For the empty list the (guarded, never used) value is `0`. -/
def popVariance (xs : List ℚ) : ℚ :=
  let n : ℚ := xs.length
  let mean := xs.sum / n
  (xs.map (fun x => (x - mean) ^ 2)).sum / n

/-- The constraint tying the extractor's `vstd` parameter to
`np.std(tx_values)`: a nonnegative square root of the population variance
of the transaction values. -/
def StdSpec (txs : List Tx) (vstd : ℚ) : Prop :=
  0 ≤ vstd ∧ vstd ^ 2 = popVariance (txValues txs)

/-- The flat feature dictionary produced by `extract_comprehensive_features`
or `_get_inactive_wallet_features`.  `inactive_risk_modifier` is `none` on
the active path, where the key is absent from the dictionary. -/
structure Features where
  eth_balance : ℚ
  total_tx_count : ℚ
  is_active_wallet : Bool
  analyzed_transactions : ℚ
  successful_transactions : ℚ
  failed_transactions : ℚ
  success_rate : ℚ
  compound_transactions : ℚ
  defi_transactions : ℚ
  compound_ratio : ℚ
  defi_ratio : ℚ
  total_volume_eth : ℚ
  avg_tx_value_eth : ℚ
  max_tx_value_eth : ℚ
  volume_volatility : ℚ
  large_tx_count : ℚ
  large_tx_ratio : ℚ
  days_since_first_tx : ℚ
  days_since_last_tx : ℚ
  avg_monthly_frequency : ℚ
  recent_activity_count : ℚ
  activity_decline : ℚ
  wallet_maturity : ℚ
  engagement_score : ℚ
  volume_concentration : ℚ
  inactive_risk_modifier : Option ℚ
  deriving DecidableEq

/-- The 2×2 branch of `_get_inactive_wallet_features` selecting
`risk_modifier` from `(total_tx_count == 0, eth_balance == 0)`. -/
def inactive_risk_modifier_of (total_tx_count eth_balance : ℚ) : ℚ :=
  if total_tx_count = 0 ∧ eth_balance = 0 then 3/10
  else if total_tx_count = 0 ∧ 0 < eth_balance then 6/10
  else if 0 < total_tx_count ∧ eth_balance = 0 then 8/10
  else 5/10

/-- Lean rendering of `_get_inactive_wallet_features`: the feature
dictionary for wallets with no fetched transactions. -/
def get_inactive_wallet_features (basic : BasicInfo) : Features :=
  { eth_balance := basic.eth_balance
    total_tx_count := basic.total_tx_count
    is_active_wallet := false
    analyzed_transactions := 0
    successful_transactions := 0
    failed_transactions := 0
    success_rate := 0
    compound_transactions := 0
    defi_transactions := 0
    compound_ratio := 0
    defi_ratio := 0
    total_volume_eth := 0
    avg_tx_value_eth := 0
    max_tx_value_eth := 0
    volume_volatility := 0
    large_tx_count := 0
    large_tx_ratio := 0
    days_since_first_tx := 0
    days_since_last_tx := 999
    avg_monthly_frequency := 0
    recent_activity_count := 0
    activity_decline := 1
    wallet_maturity := 0
    engagement_score := 0
    volume_concentration := 0
    inactive_risk_modifier :=
      some (inactive_risk_modifier_of basic.total_tx_count basic.eth_balance) }

/-- Lean rendering of `extract_comprehensive_features`.  `now` is the value
of `datetime.now()` in epoch seconds and `vstd` the value of
`np.std(tx_values)` (see `StdSpec`).  The `if tx_times` / `if tx_values`
guards of the source are always true on the nonempty branch, so the mean,
max, and time features are written directly; `volume_volatility` keeps the
source's `if len(tx_values) > 1 else 0` guard. -/
def extract_comprehensive_features (now : ℤ) (basic : BasicInfo)
    (txs : List Tx) (vstd : ℚ) : Features :=
  if txs = [] then get_inactive_wallet_features basic else
  let total : ℚ := txs.length
  let successful : ℚ := txs.countP (fun t => !t.isError)
  let failed : ℚ := total - successful
  let compound : ℚ := txs.countP (fun t => t.is_compound)
  let defi : ℚ := txs.countP (fun t => t.is_defi)
  let values := txValues txs
  let total_volume := values.sum
  let days_first : ℚ := (daysBetween now (minTimestamp txs) : ℤ)
  let days_last : ℚ := (daysBetween now (maxTimestamp txs) : ℤ)
  let mean := total_volume / total
  let vmax := maxValue txs
  let threshold := max (mean * 3) (1/10)
  let large : ℚ := values.countP (fun v => decide (threshold < v))
  let recent : ℚ := txs.countP (fun t => decide (now - 30 * 86400 < t.timeStamp))
  { eth_balance := basic.eth_balance
    total_tx_count := basic.total_tx_count
    is_active_wallet := basic.is_active
    analyzed_transactions := total
    successful_transactions := successful
    failed_transactions := failed
    success_rate := successful / max total 1
    compound_transactions := compound
    defi_transactions := defi
    compound_ratio := compound / max total 1
    defi_ratio := defi / max total 1
    total_volume_eth := total_volume
    avg_tx_value_eth := mean
    max_tx_value_eth := vmax
    volume_volatility := if 1 < txs.length then vstd else 0
    large_tx_count := large
    large_tx_ratio := large / max total 1
    days_since_first_tx := days_first
    days_since_last_tx := days_last
    avg_monthly_frequency := total / max days_first 1 * 30
    recent_activity_count := recent
    activity_decline := 1 - recent / max (total / 12) 1
    wallet_maturity := min 1 (days_first / 365)
    engagement_score := (compound + defi) / max total 1
    volume_concentration := vmax / max total_volume 1
    inactive_risk_modifier := none }

/-- The six named risk sub-scores. -/
structure RiskComponents where
  liquidation_risk : ℚ
  volatility_risk : ℚ
  concentration_risk : ℚ
  activity_risk : ℚ
  leverage_risk : ℚ
  liquidity_risk : ℚ
  deriving DecidableEq

/-- Python `max(0, min(1, x))`, the clamp used by the inactive branch. -/
def clamp01 (x : ℚ) : ℚ := max 0 (min 1 x)

/-- The active-wallet branch of `calculate_improved_risk_components`: each
component is `min(1.0, weighted sum)` — the source clamps above at 1 only. -/
def calculate_active_risk_components (f : Features) : RiskComponents :=
  { liquidation_risk := min 1 (3/10 * (1 - f.success_rate)
      + 3/10 * min 1 (f.days_since_last_tx / 90)
      + 2/10 * (1 - f.engagement_score)
      + 2/10 * f.activity_decline)
    volatility_risk := min 1 (4/10 * min 1 (f.volume_volatility / max f.avg_tx_value_eth (1/100))
      + 3/10 * f.large_tx_ratio
      + 3/10 * (1 - min 1 (f.analyzed_transactions / 50)))
    concentration_risk := min 1 (5/10 * f.volume_concentration
      + 3/10 * (1 - f.engagement_score)
      + 2/10 * (1 - min 1 (f.analyzed_transactions / 30)))
    activity_risk := min 1 (4/10 * min 1 (f.days_since_last_tx / 60)
      + 3/10 * (1 - min 1 (f.avg_monthly_frequency / 5))
      + 3/10 * f.activity_decline)
    leverage_risk := min 1 (4/10 * f.large_tx_ratio
      + 3/10 * (1 - f.defi_ratio)
      + 3/10 * min 1 (f.max_tx_value_eth / max (f.avg_tx_value_eth * 5) (1/10)))
    liquidity_risk := min 1 (3/10 * (1 - min 1 (f.total_volume_eth / 5))
      + 3/10 * min 1 (f.days_since_last_tx / 45)
      + 2/10 * (f.failed_transactions / max f.analyzed_transactions 1)
      + 2/10 * (1 - min 1 (f.eth_balance / (1/10)))) }

/-- The base risk table of `_calculate_inactive_wallet_risk`, selected by the
branch on `(total_tx_count == 0, eth_balance == 0)`.  (The source's local
`risk_modifier` and `activity_factor` values are read but never used.) -/
def inactive_base_risks (total_tx_count eth_balance : ℚ) : RiskComponents :=
  if total_tx_count = 0 ∧ eth_balance = 0 then
    { liquidation_risk := 2/10, volatility_risk := 1/10, concentration_risk := 3/10,
      activity_risk := 9/10, leverage_risk := 1/10, liquidity_risk := 7/10 }
  else if total_tx_count = 0 ∧ 0 < eth_balance then
    let balance_factor := min 1 (eth_balance / 10)
    { liquidation_risk := 3/10, volatility_risk := 2/10, concentration_risk := 4/10,
      activity_risk := 8/10, leverage_risk := 2/10,
      liquidity_risk := 6/10 * (1 - balance_factor) }
  else if 0 < total_tx_count ∧ eth_balance = 0 then
    { liquidation_risk := 6/10, volatility_risk := 4/10, concentration_risk := 5/10,
      activity_risk := 7/10, leverage_risk := 4/10, liquidity_risk := 8/10 }
  else
    { liquidation_risk := 4/10, volatility_risk := 3/10, concentration_risk := 4/10,
      activity_risk := 6/10, leverage_risk := 3/10, liquidity_risk := 5/10 }

/-- Lean rendering of `_calculate_inactive_wallet_risk`: one perturbation
value (the source's `variation = np.random.normal(0, 0.05)` drawn after
re-seeding from `hash(str(eth_balance))`) is added to every base risk, then
each is clamped to `[0, 1]`. -/
def calculate_inactive_wallet_risk (f : Features) (variation : ℚ) : RiskComponents :=
  let b := inactive_base_risks f.total_tx_count f.eth_balance
  { liquidation_risk := clamp01 (b.liquidation_risk + variation)
    volatility_risk := clamp01 (b.volatility_risk + variation)
    concentration_risk := clamp01 (b.concentration_risk + variation)
    activity_risk := clamp01 (b.activity_risk + variation)
    leverage_risk := clamp01 (b.leverage_risk + variation)
    liquidity_risk := clamp01 (b.liquidity_risk + variation) }

/-- Top level of `calculate_improved_risk_components`: dispatch on the
`is_active_wallet` flag (Python `if not features.get('is_active_wallet', True)`). -/
def calculate_improved_risk_components (f : Features) (variation : ℚ) : RiskComponents :=
  if f.is_active_wallet = false then calculate_inactive_wallet_risk f variation
  else calculate_active_risk_components f

/-- The fixed-weight sum of `calculate_composite_score` with the weights of
`self.risk_weights` (0.25, 0.20, 0.15, 0.15, 0.15, 0.10). -/
def weighted_score (c : RiskComponents) : ℚ :=
  c.liquidation_risk * (25/100) + c.volatility_risk * (20/100)
    + c.concentration_risk * (15/100) + c.activity_risk * (15/100)
    + c.leverage_risk * (15/100) + c.liquidity_risk * (10/100)

/-- Lean rendering of `calculate_composite_score`: regime-dependent scaling
followed by the final `max(0, min(1000, scaled_score))`. -/
def calculate_composite_score (c : RiskComponents) (f : Features) : ℚ :=
  let ws := weighted_score c
  let scaled := if f.is_active_wallet = false then 200 + ws * 500
    else ws * 800 + 100 - f.engagement_score * 100 - f.wallet_maturity * 50
  max 0 (min 1000 scaled)

/-- Lean rendering of `categorize_risk`. -/
def categorize_risk (score : ℚ) : String :=
  if score ≤ 150 then "Very Low"
  else if score ≤ 350 then "Low"
  else if score ≤ 550 then "Medium"
  else if score ≤ 750 then "High"
  else "Very High"

/-- The record returned by `analyze_wallet`.  The source flattens features
and components into `<name>` / `<name>_score` keys with display rounding
(`round(·, k)`); here the unrounded feature and component records are
carried whole, `none` on the failure branch where the source's dictionary
omits them. -/
structure AnalysisResult where
  wallet_address : String
  risk_score : ℚ
  risk_category : String
  analysis_status : String
  error_message : Option String
  features : Option Features
  components : Option RiskComponents
  deriving DecidableEq

/-- The record built by the `except` branch of `analyze_wallet`. -/
def failure_result (addr e : String) : AnalysisResult :=
  { wallet_address := addr, risk_score := 999, risk_category := "Analysis Failed",
    analysis_status := "failed", error_message := some e,
    features := none, components := none }

/-- Lean rendering of `analyze_wallet`.  The two fetch stages are the ones
that can raise (they are modelled as `Except` inputs); the scoring stages
are total once embedded.  The Python `try`/`except` around the whole body
becomes the propagation of the first error into `failure_result`. -/
def analyze_wallet (addr : String) (now : ℤ) (vstd variation : ℚ)
    (basic_result : Except String BasicInfo)
    (txs_result : Except String (List Tx)) : AnalysisResult :=
  match basic_result with
  | Except.error e => failure_result addr e
  | Except.ok basic =>
    match txs_result with
    | Except.error e => failure_result addr e
    | Except.ok txs =>
      let f := extract_comprehensive_features now basic txs vstd
      let comps := calculate_improved_risk_components f variation
      let score := calculate_composite_score comps f
      { wallet_address := addr, risk_score := score,
        risk_category := categorize_risk score, analysis_status := "success",
        error_message := none, features := some f, components := some comps }

/-- All six risk components lie in the unit interval. -/
def InUnitRange (c : RiskComponents) : Prop :=
  (0 ≤ c.liquidation_risk ∧ c.liquidation_risk ≤ 1)
  ∧ (0 ≤ c.volatility_risk ∧ c.volatility_risk ≤ 1)
  ∧ (0 ≤ c.concentration_risk ∧ c.concentration_risk ≤ 1)
  ∧ (0 ≤ c.activity_risk ∧ c.activity_risk ≤ 1)
  ∧ (0 ≤ c.leverage_risk ∧ c.leverage_risk ≤ 1)
  ∧ (0 ≤ c.liquidity_risk ∧ c.liquidity_risk ≤ 1)

/-- Range constraints on the count, rate and score fields of an active-path
feature vector, all guaranteed by the extractor: counts and ratios are
nonnegative and the rate/ratio fields are at most 1.  Deliberately absent:
any sign constraint on `activity_decline`, which the extractor does not
guarantee. -/
def ActiveWF (f : Features) : Prop :=
  0 ≤ f.success_rate ∧ f.success_rate ≤ 1
  ∧ 0 ≤ f.days_since_last_tx
  ∧ 0 ≤ f.engagement_score ∧ f.engagement_score ≤ 1
  ∧ 0 ≤ f.volume_volatility
  ∧ 0 ≤ f.large_tx_ratio
  ∧ 0 ≤ f.volume_concentration
  ∧ 0 ≤ f.avg_monthly_frequency
  ∧ 0 ≤ f.defi_ratio ∧ f.defi_ratio ≤ 1
  ∧ 0 ≤ f.max_tx_value_eth
  ∧ 0 ≤ f.failed_transactions

/-- The six components as a function on `Fin 6`, in the order
(liquidation, volatility, concentration, activity, leverage, liquidity). -/
def component (c : RiskComponents) : Fin 6 → ℚ
  | ⟨0, _⟩ => c.liquidation_risk
  | ⟨1, _⟩ => c.volatility_risk
  | ⟨2, _⟩ => c.concentration_risk
  | ⟨3, _⟩ => c.activity_risk
  | ⟨4, _⟩ => c.leverage_risk
  | ⟨5, _⟩ => c.liquidity_risk

/-- The liquidation-risk formula exactly as the claim words it: the weighted
sum "clamped to [0,1]".  This is the spec-side definition to be compared
with the source's `min(1.0, ·)`-only version. -/
def liquidation_risk_claimed (f : Features) : ℚ :=
  clamp01 (3/10 * (1 - f.success_rate)
    + 3/10 * min 1 (f.days_since_last_tx / 90)
    + 2/10 * (1 - f.engagement_score)
    + 2/10 * f.activity_decline)

/-!  Concrete inputs used by witnesses and counterexamples.  `cexTx` is a
successful 1-ETH Compound transaction one hour before `cexNow`; a wallet
whose two fetched transactions both fall in the trailing 30 days has
`activity_decline = 1 - 2 / max(2/12, 1) = -1`. -/

/-- Reference current time for the concrete inputs (epoch seconds). -/
def cexNow : ℤ := 1000000000

/-- A successful 1-ETH Compound transaction one hour before `cexNow`. -/
def cexTx : Tx :=
  { timeStamp := 999996400, valueWei := 10 ^ 18, isError := false,
    is_compound := true, is_defi := false }

/-- Snapshot of an active wallet with balance 1 ETH and 2 lifetime
transactions. -/
def cexBasic : BasicInfo :=
  { eth_balance := 1, total_tx_count := 2, is_active := true }

/-- Feature vector the extractor produces for the active wallet `cexBasic`
with the two recent transactions `[cexTx, cexTx]` (standard deviation of
two equal values is exactly 0). -/
def cexFeatures : Features :=
  extract_comprehensive_features cexNow cexBasic [cexTx, cexTx] 0

/-- A successful transfer of 0.5 ETH one hour before `cexNow`. -/
def halfEthTx : Tx :=
  { timeStamp := 999996400, valueWei := 5 * 10 ^ 17, isError := false,
    is_compound := false, is_defi := false }

/-- Feature vector for an active wallet whose single fetched transaction
moved 0.5 ETH, so the realized total volume is strictly between 0 and 1. -/
def halfEthFeatures : Features :=
  extract_comprehensive_features cexNow cexBasic [halfEthTx] 0

/-- Snapshot of a funded but dormant wallet: 5 ETH, no transactions. -/
def dormantBasic : BasicInfo :=
  { eth_balance := 5, total_tx_count := 0, is_active := false }

/-- Features of the funded dormant wallet. -/
def dormantFeatures : Features := get_inactive_wallet_features dormantBasic

/-- Snapshot of a never-used wallet: zero balance, zero transactions. -/
def zeroBasic : BasicInfo :=
  { eth_balance := 0, total_tx_count := 0, is_active := false }

/-- Features of the never-used wallet. -/
def zeroFeatures : Features := get_inactive_wallet_features zeroBasic

/-- All six components zero: the bottom of the unit-range component box. -/
def zeroComponents : RiskComponents :=
  { liquidation_risk := 0, volatility_risk := 0, concentration_risk := 0,
    activity_risk := 0, leverage_risk := 0, liquidity_risk := 0 }

/-- A hand-picked active feature vector with perfect behavioural signals:
full success rate, a transaction today, full engagement, no decline (the
shape the extractor yields for one recent successful Compound transaction). -/
def pristineActiveFeatures : Features :=
  { eth_balance := 1, total_tx_count := 1, is_active_wallet := true,
    analyzed_transactions := 1, successful_transactions := 1,
    failed_transactions := 0, success_rate := 1, compound_transactions := 1,
    defi_transactions := 0, compound_ratio := 1, defi_ratio := 0,
    total_volume_eth := 1, avg_tx_value_eth := 1, max_tx_value_eth := 1,
    volume_volatility := 0, large_tx_count := 0, large_tx_ratio := 0,
    days_since_first_tx := 0, days_since_last_tx := 0,
    avg_monthly_frequency := 30, recent_activity_count := 1,
    activity_decline := 0, wallet_maturity := 0, engagement_score := 1,
    volume_concentration := 1, inactive_risk_modifier := none }

/-- Wallet address used by the orchestrator witness. -/
def demoAddr : String := "0xdemo"

/-- Error message used by the orchestrator witness. -/
def demoError : String := "boom"

/-!  Helper lemmas about clamps. -/

theorem clamp01_nonneg (x : ℚ) : 0 ≤ clamp01 x := le_max_left 0 _

theorem clamp01_le_one (x : ℚ) : clamp01 x ≤ 1 :=
  max_le (by norm_num) (min_le_left 1 x)

theorem clamp01_mono {x y : ℚ} (h : x ≤ y) : clamp01 x ≤ clamp01 y :=
  max_le_max le_rfl (min_le_min le_rfl h)

theorem min_one_nonneg {x : ℚ} (h : 0 ≤ x) : 0 ≤ min 1 x :=
  le_min (by norm_num) h

theorem one_sub_min_one_nonneg (x : ℚ) : 0 ≤ 1 - min 1 x := by
  have := min_le_left (1 : ℚ) x
  linarith

/-- C6: the inactive base-risk table.  For a wallet with `totalTxCount = 0`
and `ethBalance = 0` the six base risks (liquidation, volatility,
concentration, activity, leverage, liquidity) are exactly
(0.2, 0.1, 0.3, 0.9, 0.1, 0.7); for `totalTxCount = 0` and `ethBalance = 5`
the liquidity base risk is `0.6 * (1 - min(1, 5/10)) = 0.3` and the other
five are (0.3, 0.2, 0.4, 0.8, 0.2). -/
theorem inactive_base_risks_values :
    inactive_base_risks 0 0 =
      { liquidation_risk := 2/10, volatility_risk := 1/10, concentration_risk := 3/10,
        activity_risk := 9/10, leverage_risk := 1/10, liquidity_risk := 7/10 }
    ∧ inactive_base_risks 0 5 =
      { liquidation_risk := 3/10, volatility_risk := 2/10, concentration_risk := 4/10,
        activity_risk := 8/10, leverage_risk := 2/10, liquidity_risk := 3/10 }
    ∧ (6/10 : ℚ) * (1 - min 1 (5/10)) = 3/10 := by
  refine ⟨?_, ?_, by norm_num⟩ <;> norm_num [inactive_base_risks]

/-- C3: categorization is total and contiguous.  Every score is mapped to
exactly one of the five labels; the label is "Very Low" exactly on
`(-∞, 150]`, "Low" exactly on `(150, 350]`, "Medium" exactly on
`(350, 550]`, "High" exactly on `(550, 750]` and "Very High" exactly on
`(750, ∞)`; each boundary value 150, 350, 550, 750 belongs to the lower
category. -/
theorem categorize_risk_total_contiguous :
    (∀ s : ℚ,
      (categorize_risk s = "Very Low" ∨ categorize_risk s = "Low"
        ∨ categorize_risk s = "Medium" ∨ categorize_risk s = "High"
        ∨ categorize_risk s = "Very High")
      ∧ (categorize_risk s = "Very Low" ↔ s ≤ 150)
      ∧ (categorize_risk s = "Low" ↔ 150 < s ∧ s ≤ 350)
      ∧ (categorize_risk s = "Medium" ↔ 350 < s ∧ s ≤ 550)
      ∧ (categorize_risk s = "High" ↔ 550 < s ∧ s ≤ 750)
      ∧ (categorize_risk s = "Very High" ↔ 750 < s))
    ∧ categorize_risk 150 = "Very Low" ∧ categorize_risk 350 = "Low"
    ∧ categorize_risk 550 = "Medium" ∧ categorize_risk 750 = "High" := by
  refine ⟨fun s => ?_, by norm_num [categorize_risk], by norm_num [categorize_risk],
    by norm_num [categorize_risk], by norm_num [categorize_risk]⟩
  unfold categorize_risk
  split_ifs with h1 h2 h3 h4
  · exact ⟨Or.inl rfl, iff_of_true rfl h1,
      iff_of_false (by decide) (fun h => absurd h.1 (not_lt.mpr h1)),
      iff_of_false (by decide) (fun h => absurd h.1 (not_lt.mpr (by linarith))),
      iff_of_false (by decide) (fun h => absurd h.1 (not_lt.mpr (by linarith))),
      iff_of_false (by decide) (fun h => absurd h (not_lt.mpr (by linarith)))⟩
  · exact ⟨Or.inr (Or.inl rfl), iff_of_false (by decide) h1,
      iff_of_true rfl ⟨not_le.mp h1, h2⟩,
      iff_of_false (by decide) (fun h => absurd h.1 (not_lt.mpr h2)),
      iff_of_false (by decide) (fun h => absurd h.1 (not_lt.mpr (by linarith))),
      iff_of_false (by decide) (fun h => absurd h (not_lt.mpr (by linarith)))⟩
  · exact ⟨Or.inr (Or.inr (Or.inl rfl)),
      iff_of_false (by decide) h1,
      iff_of_false (by decide) (fun h => h2 h.2),
      iff_of_true rfl ⟨not_le.mp h2, h3⟩,
      iff_of_false (by decide) (fun h => absurd h.1 (not_lt.mpr h3)),
      iff_of_false (by decide) (fun h => absurd h (not_lt.mpr (by linarith)))⟩
  · exact ⟨Or.inr (Or.inr (Or.inr (Or.inl rfl))),
      iff_of_false (by decide) h1,
      iff_of_false (by decide) (fun h => h2 h.2),
      iff_of_false (by decide) (fun h => h3 h.2),
      iff_of_true rfl ⟨not_le.mp h3, h4⟩,
      iff_of_false (by decide) (fun h => absurd h (not_lt.mpr h4))⟩
  · exact ⟨Or.inr (Or.inr (Or.inr (Or.inr rfl))),
      iff_of_false (by decide) h1,
      iff_of_false (by decide) (fun h => h2 h.2),
      iff_of_false (by decide) (fun h => h3 h.2),
      iff_of_false (by decide) (fun h => h4 h.2),
      iff_of_true rfl (not_le.mp h4)⟩

/-- C4: the orchestrator is fail-soft.  `analyze_wallet` is a total
function of its (possibly failing) stage inputs: if a fetch stage fails its
error is converted into the failure record (risk score 999, category
"Analysis Failed", status "failed", message attached) and if no stage fails
the result is a success record; every result is one of those two shapes, so
no exception ever reaches the caller. -/
theorem analyze_wallet_failsoft (addr : String) (now : ℤ) (vstd variation : ℚ)
    (basicR : Except String BasicInfo) (txsR : Except String (List Tx)) :
    (∀ e, basicR = Except.error e →
      analyze_wallet addr now vstd variation basicR txsR = failure_result addr e)
    ∧ (∀ b e, basicR = Except.ok b → txsR = Except.error e →
      analyze_wallet addr now vstd variation basicR txsR = failure_result addr e)
    ∧ (∀ b txs, basicR = Except.ok b → txsR = Except.ok txs →
      (analyze_wallet addr now vstd variation basicR txsR).analysis_status = "success"
      ∧ (analyze_wallet addr now vstd variation basicR txsR).error_message = none)
    ∧ (∀ e, (failure_result addr e).risk_score = 999
        ∧ (failure_result addr e).risk_category = "Analysis Failed"
        ∧ (failure_result addr e).analysis_status = "failed"
        ∧ (failure_result addr e).error_message = some e)
    ∧ ((analyze_wallet addr now vstd variation basicR txsR).analysis_status = "success"
        ∨ ((analyze_wallet addr now vstd variation basicR txsR).risk_score = 999
          ∧ (analyze_wallet addr now vstd variation basicR txsR).risk_category = "Analysis Failed"
          ∧ (analyze_wallet addr now vstd variation basicR txsR).analysis_status = "failed"
          ∧ ∃ e, (analyze_wallet addr now vstd variation basicR txsR).error_message = some e)) := by
  cases basicR with
  | error e => exact ⟨fun e' he => by simp_all [analyze_wallet],
      fun b e' hb => by simp_all, fun b txs hb => by simp_all,
      fun e' => ⟨rfl, rfl, rfl, rfl⟩,
      Or.inr ⟨rfl, rfl, rfl, e, rfl⟩⟩
  | ok basic =>
    cases txsR with
    | error e => exact ⟨fun e' he => by simp_all,
        fun b e' hb ht => by simp_all [analyze_wallet],
        fun b txs hb ht => by simp_all,
        fun e' => ⟨rfl, rfl, rfl, rfl⟩,
        Or.inr ⟨rfl, rfl, rfl, e, rfl⟩⟩
    | ok txs => exact ⟨fun e' he => by simp_all,
        fun b e' hb ht => by simp_all,
        fun b txs' hb ht => ⟨rfl, rfl⟩,
        fun e' => ⟨rfl, rfl, rfl, rfl⟩,
        Or.inl rfl⟩

/-- C4 witness: a failed snapshot fetch for a concrete wallet yields the
concrete failure record with score 999. -/
theorem analyze_wallet_failsoft_witness :
    analyze_wallet demoAddr 0 0 0 (Except.error demoError) (Except.ok [])
      = failure_result demoAddr demoError
    ∧ (failure_result demoAddr demoError).risk_score = 999 :=
  ⟨(analyze_wallet_failsoft demoAddr 0 0 0 (Except.error demoError)
      (Except.ok [])).1 demoError rfl,
    ((analyze_wallet_failsoft demoAddr 0 0 0 (Except.error demoError)
      (Except.ok [])).2.2.2.1 demoError).1⟩

/-- C5: whenever the fetched transaction list is empty, feature extraction
dispatches to the inactive construction regardless of the snapshot's
activity flag: every transaction-derived field is zero,
`days_since_last_tx = 999`, `activity_decline = 1`, and the
`inactive_risk_modifier` is the value of the 2×2 branch on
`(total_tx_count == 0, eth_balance == 0)`, hence one of
{0.3, 0.6, 0.8, 0.5}. -/
theorem extract_empty_inactive_dispatch (now : ℤ) (basic : BasicInfo) (vstd : ℚ) :
    extract_comprehensive_features now basic [] vstd = get_inactive_wallet_features basic
    ∧ (get_inactive_wallet_features basic).is_active_wallet = false
    ∧ (get_inactive_wallet_features basic).analyzed_transactions = 0
    ∧ (get_inactive_wallet_features basic).successful_transactions = 0
    ∧ (get_inactive_wallet_features basic).failed_transactions = 0
    ∧ (get_inactive_wallet_features basic).success_rate = 0
    ∧ (get_inactive_wallet_features basic).compound_transactions = 0
    ∧ (get_inactive_wallet_features basic).defi_transactions = 0
    ∧ (get_inactive_wallet_features basic).compound_ratio = 0
    ∧ (get_inactive_wallet_features basic).defi_ratio = 0
    ∧ (get_inactive_wallet_features basic).total_volume_eth = 0
    ∧ (get_inactive_wallet_features basic).avg_tx_value_eth = 0
    ∧ (get_inactive_wallet_features basic).max_tx_value_eth = 0
    ∧ (get_inactive_wallet_features basic).volume_volatility = 0
    ∧ (get_inactive_wallet_features basic).large_tx_count = 0
    ∧ (get_inactive_wallet_features basic).large_tx_ratio = 0
    ∧ (get_inactive_wallet_features basic).days_since_first_tx = 0
    ∧ (get_inactive_wallet_features basic).avg_monthly_frequency = 0
    ∧ (get_inactive_wallet_features basic).recent_activity_count = 0
    ∧ (get_inactive_wallet_features basic).wallet_maturity = 0
    ∧ (get_inactive_wallet_features basic).engagement_score = 0
    ∧ (get_inactive_wallet_features basic).volume_concentration = 0
    ∧ (get_inactive_wallet_features basic).days_since_last_tx = 999
    ∧ (get_inactive_wallet_features basic).activity_decline = 1
    ∧ (get_inactive_wallet_features basic).inactive_risk_modifier
        = some (inactive_risk_modifier_of basic.total_tx_count basic.eth_balance)
    ∧ (inactive_risk_modifier_of basic.total_tx_count basic.eth_balance = 3/10
        ∨ inactive_risk_modifier_of basic.total_tx_count basic.eth_balance = 6/10
        ∨ inactive_risk_modifier_of basic.total_tx_count basic.eth_balance = 8/10
        ∨ inactive_risk_modifier_of basic.total_tx_count basic.eth_balance = 5/10)
    ∧ (basic.total_tx_count = 0 → basic.eth_balance = 0 →
        inactive_risk_modifier_of basic.total_tx_count basic.eth_balance = 3/10)
    ∧ (basic.total_tx_count = 0 → 0 < basic.eth_balance →
        inactive_risk_modifier_of basic.total_tx_count basic.eth_balance = 6/10)
    ∧ (0 < basic.total_tx_count → basic.eth_balance = 0 →
        inactive_risk_modifier_of basic.total_tx_count basic.eth_balance = 8/10)
    ∧ (0 < basic.total_tx_count → 0 < basic.eth_balance →
        inactive_risk_modifier_of basic.total_tx_count basic.eth_balance = 5/10) := by
  refine ⟨by simp [extract_comprehensive_features], rfl, rfl, rfl, rfl, rfl, rfl, rfl,
    rfl, rfl, rfl, rfl, rfl, rfl, rfl, rfl, rfl, rfl, rfl, rfl, rfl, rfl, rfl, rfl, rfl,
    ?_, ?_, ?_, ?_, ?_⟩
  · unfold inactive_risk_modifier_of
    split_ifs <;> simp
  · intro h1 h2
    simp [inactive_risk_modifier_of, h1, h2]
  · intro h1 h2
    rw [inactive_risk_modifier_of, if_neg (fun h => h2.ne' h.2), if_pos ⟨h1, h2⟩]
  · intro h1 h2
    rw [inactive_risk_modifier_of, if_neg (fun h => h1.ne' h.1),
      if_neg (fun h => h1.ne' h.1), if_pos ⟨h1, h2⟩]
  · intro h1 h2
    rw [inactive_risk_modifier_of, if_neg (fun h => h1.ne' h.1),
      if_neg (fun h => h1.ne' h.1), if_neg (fun h => h2.ne' h.2)]

/-- C5 witness: a snapshot whose activity flag is `true` but whose fetched
transaction list is empty still goes down the inactive path, and the
never-used branch of the modifier table yields 0.3. -/
theorem extract_empty_inactive_dispatch_witness :
    extract_comprehensive_features 0 { eth_balance := 0, total_tx_count := 0, is_active := true } [] 0
      = get_inactive_wallet_features { eth_balance := 0, total_tx_count := 0, is_active := true }
    ∧ inactive_risk_modifier_of 0 0 = 3/10 := by
  obtain ⟨h1, -, -, -, -, -, -, -, -, -, -, -, -, -, -, -, -, -, -, -, -, -, -, -, -,
      -, hz, -, -, -⟩ :=
    extract_empty_inactive_dispatch 0
      { eth_balance := 0, total_tx_count := 0, is_active := true } 0
  exact ⟨h1, hz rfl rfl⟩

/-- C2: composite scoring.  With all six components in [0,1], the weighted
score is the fixed-weight sum (liquidation 0.25, volatility 0.20,
concentration 0.15, activity 0.15, leverage 0.15, liquidity 0.10); an
inactive wallet scores exactly `200 + weightedScore * 500`, which lies in
[200, 700]; an active wallet scores
`weightedScore * 800 + 100 - engagement * 100 - maturity * 50` clamped to
[0, 1000]; and the returned score always lies in [0, 1000]. -/
theorem composite_score_spec (c : RiskComponents) (f : Features) (h : InUnitRange c) :
    weighted_score c = c.liquidation_risk * (25/100) + c.volatility_risk * (20/100)
      + c.concentration_risk * (15/100) + c.activity_risk * (15/100)
      + c.leverage_risk * (15/100) + c.liquidity_risk * (10/100)
    ∧ (f.is_active_wallet = false →
        calculate_composite_score c f = 200 + weighted_score c * 500
        ∧ 200 ≤ calculate_composite_score c f
        ∧ calculate_composite_score c f ≤ 700)
    ∧ (f.is_active_wallet = true →
        calculate_composite_score c f
          = max 0 (min 1000 (weighted_score c * 800 + 100
              - f.engagement_score * 100 - f.wallet_maturity * 50)))
    ∧ 0 ≤ calculate_composite_score c f ∧ calculate_composite_score c f ≤ 1000 := by
  obtain ⟨⟨hl0, hl1⟩, ⟨hv0, hv1⟩, ⟨hc0, hc1⟩, ⟨ha0, ha1⟩, ⟨he0, he1⟩, ⟨hq0, hq1⟩⟩ := h
  have hws0 : 0 ≤ weighted_score c := by unfold weighted_score; linarith
  have hws1 : weighted_score c ≤ 1 := by unfold weighted_score; linarith
  refine ⟨rfl, fun hin => ?_, fun hact => ?_, ?_, ?_⟩
  · have heq : calculate_composite_score c f = 200 + weighted_score c * 500 := by
      rw [calculate_composite_score, if_pos hin, min_eq_right (by linarith),
        max_eq_right (by linarith)]
    exact ⟨heq, by rw [heq]; linarith, by rw [heq]; linarith⟩
  · rw [calculate_composite_score, if_neg (by simp [hact])]
  · exact le_max_left 0 _
  · exact max_le (by norm_num) (min_le_left 1000 _)

/-- C2 witness: the all-zero component record is in range, and an inactive
wallet with those components scores exactly 200 + 0 * 500 = 200. -/
theorem composite_score_spec_witness :
    InUnitRange zeroComponents
    ∧ calculate_composite_score zeroComponents dormantFeatures
        = 200 + weighted_score zeroComponents * 500 := by
  have hin : InUnitRange zeroComponents := by
    refine ⟨⟨?_, ?_⟩, ⟨?_, ?_⟩, ⟨?_, ?_⟩, ⟨?_, ?_⟩, ⟨?_, ?_⟩, ⟨?_, ?_⟩⟩ <;>
      norm_num [zeroComponents]
  exact ⟨hin, ((composite_score_spec zeroComponents dormantFeatures hin).2.1 rfl).1⟩

/-- C10: the inactive algorithm draws one perturbation value, adds it to
all six base risks and clamps, so the weak ordering of the base risks is
preserved by the final components: for any two component positions, if the
base risk at `i` is at most the base risk at `j`, the clamped final
component at `i` is at most the one at `j`. -/
theorem inactive_ordering_preserved (f : Features) (v : ℚ) (i j : Fin 6)
    (h : component (inactive_base_risks f.total_tx_count f.eth_balance) i
      ≤ component (inactive_base_risks f.total_tx_count f.eth_balance) j) :
    component (calculate_inactive_wallet_risk f v) i
      ≤ component (calculate_inactive_wallet_risk f v) j := by
  have hcomp : ∀ k : Fin 6, component (calculate_inactive_wallet_risk f v) k
      = clamp01 (component (inactive_base_risks f.total_tx_count f.eth_balance) k + v) := by
    intro k
    fin_cases k <;> rfl
  rw [hcomp i, hcomp j]
  exact clamp01_mono (add_le_add_right h v)

/-- C10 witness: for the never-used wallet the volatility base risk 0.1 is
below the liquidation base risk 0.2, and the clamped final components keep
that order. -/
theorem inactive_ordering_preserved_witness :
    component (inactive_base_risks zeroFeatures.total_tx_count zeroFeatures.eth_balance)
        ⟨1, by norm_num⟩
      ≤ component (inactive_base_risks zeroFeatures.total_tx_count zeroFeatures.eth_balance)
        ⟨0, by norm_num⟩
    ∧ component (calculate_inactive_wallet_risk zeroFeatures 0) ⟨1, by norm_num⟩
      ≤ component (calculate_inactive_wallet_risk zeroFeatures 0) ⟨0, by norm_num⟩ := by
  have hbase : component (inactive_base_risks zeroFeatures.total_tx_count
        zeroFeatures.eth_balance) ⟨1, by norm_num⟩
      ≤ component (inactive_base_risks zeroFeatures.total_tx_count
        zeroFeatures.eth_balance) ⟨0, by norm_num⟩ := by
    norm_num [component, inactive_base_risks, zeroFeatures, zeroBasic,
      get_inactive_wallet_features]
  exact ⟨hbase, inactive_ordering_preserved zeroFeatures 0 _ _ hbase⟩

/-- Evaluation of the extractor on the concrete active wallet `cexBasic`
with the two recent transactions `[cexTx, cexTx]`: both fall in the
trailing 30 days, so `activity_decline = 1 - 2 / max(2/12, 1) = -1`. -/
theorem cexFeatures_eq : cexFeatures =
    { eth_balance := 1, total_tx_count := 2, is_active_wallet := true,
      analyzed_transactions := 2, successful_transactions := 2, failed_transactions := 0,
      success_rate := 1, compound_transactions := 2, defi_transactions := 0,
      compound_ratio := 1, defi_ratio := 0, total_volume_eth := 2, avg_tx_value_eth := 1,
      max_tx_value_eth := 1, volume_volatility := 0, large_tx_count := 0, large_tx_ratio := 0,
      days_since_first_tx := 0, days_since_last_tx := 0, avg_monthly_frequency := 60,
      recent_activity_count := 2, activity_decline := -1, wallet_maturity := 0,
      engagement_score := 1, volume_concentration := 1/2, inactive_risk_modifier := none } := by
  rw [cexFeatures, extract_comprehensive_features, if_neg (List.cons_ne_nil _ _)]
  norm_num [cexBasic, cexTx, cexNow, txValues, weiToEth, minTimestamp, maxTimestamp,
    maxValue, daysBetween, List.countP, List.countP.go, Int.fdiv, min_def, max_def]

/-- C1 (amended): components computed by the inactive algorithm always lie
in [0,1] (they are explicitly clamped on both sides); components computed by
the active algorithm are always at most 1, and lie in [0,1] provided the
feature vector's rate/ratio/count fields are in their natural ranges AND
`activity_decline` is nonnegative — the source clamps the active components
with `min(1.0, ·)` only, so a negative `activity_decline` (which the
extractor can produce) can push a component below 0. -/
theorem risk_components_unit_range_amended (f : Features) (v : ℚ) :
    (f.is_active_wallet = false → InUnitRange (calculate_improved_risk_components f v))
    ∧ (f.is_active_wallet = true →
        (calculate_improved_risk_components f v).liquidation_risk ≤ 1
        ∧ (calculate_improved_risk_components f v).volatility_risk ≤ 1
        ∧ (calculate_improved_risk_components f v).concentration_risk ≤ 1
        ∧ (calculate_improved_risk_components f v).activity_risk ≤ 1
        ∧ (calculate_improved_risk_components f v).leverage_risk ≤ 1
        ∧ (calculate_improved_risk_components f v).liquidity_risk ≤ 1)
    ∧ (f.is_active_wallet = true → ActiveWF f → 0 ≤ f.activity_decline →
        InUnitRange (calculate_improved_risk_components f v)) := by
  refine ⟨fun hin => ?_, fun hact => ?_, fun hact hwf hdec => ?_⟩
  · rw [calculate_improved_risk_components, if_pos hin]
    exact ⟨⟨clamp01_nonneg _, clamp01_le_one _⟩, ⟨clamp01_nonneg _, clamp01_le_one _⟩,
      ⟨clamp01_nonneg _, clamp01_le_one _⟩, ⟨clamp01_nonneg _, clamp01_le_one _⟩,
      ⟨clamp01_nonneg _, clamp01_le_one _⟩, ⟨clamp01_nonneg _, clamp01_le_one _⟩⟩
  · rw [calculate_improved_risk_components, if_neg (by simp [hact])]
    exact ⟨min_le_left _ _, min_le_left _ _, min_le_left _ _, min_le_left _ _,
      min_le_left _ _, min_le_left _ _⟩
  · rw [calculate_improved_risk_components, if_neg (by simp [hact])]
    obtain ⟨hsr0, hsr1, hdl, hes0, hes1, hvv, hltr, hvc, hfreq, hdr0, hdr1, hmax, hfail⟩ := hwf
    unfold InUnitRange calculate_active_risk_components
    dsimp only
    have hd90 : (0:ℚ) ≤ f.days_since_last_tx / 90 := div_nonneg hdl (by norm_num)
    have hd60 : (0:ℚ) ≤ f.days_since_last_tx / 60 := div_nonneg hdl (by norm_num)
    have hd45 : (0:ℚ) ≤ f.days_since_last_tx / 45 := div_nonneg hdl (by norm_num)
    have hvvd : (0:ℚ) ≤ f.volume_volatility / max f.avg_tx_value_eth (1/100) :=
      div_nonneg hvv (le_trans (by norm_num) (le_max_right _ _))
    have hmx : (0:ℚ) ≤ f.max_tx_value_eth / max (f.avg_tx_value_eth * 5) (1/10) :=
      div_nonneg hmax (le_trans (by norm_num) (le_max_right _ _))
    have hff : (0:ℚ) ≤ f.failed_transactions / max f.analyzed_transactions 1 :=
      div_nonneg hfail (le_trans (by norm_num) (le_max_right _ _))
    refine ⟨⟨le_min (by norm_num) ?_, min_le_left _ _⟩,
      ⟨le_min (by norm_num) ?_, min_le_left _ _⟩,
      ⟨le_min (by norm_num) ?_, min_le_left _ _⟩,
      ⟨le_min (by norm_num) ?_, min_le_left _ _⟩,
      ⟨le_min (by norm_num) ?_, min_le_left _ _⟩,
      ⟨le_min (by norm_num) ?_, min_le_left _ _⟩⟩
    · have t2 := min_one_nonneg hd90
      linarith
    · have t1 := min_one_nonneg hvvd
      have t3 := one_sub_min_one_nonneg (f.analyzed_transactions / 50)
      linarith
    · have t3 := one_sub_min_one_nonneg (f.analyzed_transactions / 30)
      linarith
    · have t1 := min_one_nonneg hd60
      have t2 := one_sub_min_one_nonneg (f.avg_monthly_frequency / 5)
      linarith
    · have t3 := min_one_nonneg hmx
      linarith
    · have t1 := one_sub_min_one_nonneg (f.total_volume_eth / 5)
      have t2 := min_one_nonneg hd45
      have t4 := one_sub_min_one_nonneg (f.eth_balance / (1/10))
      linarith

/-- C1 witness: for the never-used inactive wallet all six components lie
in [0,1]. -/
theorem risk_components_unit_range_witness :
    zeroFeatures.is_active_wallet = false
    ∧ InUnitRange (calculate_improved_risk_components zeroFeatures 0) :=
  ⟨rfl, (risk_components_unit_range_amended zeroFeatures 0).1 rfl⟩

/-- C1 counterexample: the feature vector the extractor produces for an
active wallet whose two fetched (successful, engaged) transactions are both
recent has `activity_decline = -1`, and on it the active algorithm returns
a liquidation risk of -1/5, strictly below 0 — so not every component lies
in [0,1].  The `vstd = 0` parameter is the true standard deviation of the
two equal transaction values (`StdSpec` holds). -/
theorem risk_components_unit_range_cex :
    cexFeatures.is_active_wallet = true
    ∧ StdSpec [cexTx, cexTx] 0
    ∧ (calculate_improved_risk_components cexFeatures 0).liquidation_risk = -1/5
    ∧ ¬ (0 ≤ (calculate_improved_risk_components cexFeatures 0).liquidation_risk) := by
  have hval : (calculate_improved_risk_components cexFeatures 0).liquidation_risk = -1/5 := by
    rw [cexFeatures_eq]
    norm_num [calculate_improved_risk_components, calculate_active_risk_components, min_def]
  refine ⟨rfl, ?_, hval, by rw [hval]; norm_num⟩
  constructor
  · norm_num
  · norm_num [popVariance, txValues, weiToEth, cexTx]

/-- C7 (amended): for every active feature vector the computed liquidation
risk equals `min(1, 0.3(1-successRate) + 0.3 min(1, daysSinceLastTx/90)
+ 0.2(1-engagementScore) + 0.2 activityDecline)` — clamped above at 1 only,
not to [0,1] — and in particular a wallet with successRate = 1,
daysSinceLastTx = 0, engagementScore = 1 and activityDecline = 0 gets
liquidation risk exactly 0. -/
theorem liquidation_risk_active_formula (f : Features) (v : ℚ)
    (hact : f.is_active_wallet = true) :
    (calculate_improved_risk_components f v).liquidation_risk
      = min 1 (3/10 * (1 - f.success_rate) + 3/10 * min 1 (f.days_since_last_tx / 90)
        + 2/10 * (1 - f.engagement_score) + 2/10 * f.activity_decline)
    ∧ (f.success_rate = 1 → f.days_since_last_tx = 0 → f.engagement_score = 1 →
        f.activity_decline = 0 →
        (calculate_improved_risk_components f v).liquidation_risk = 0) := by
  have heq : (calculate_improved_risk_components f v).liquidation_risk
      = min 1 (3/10 * (1 - f.success_rate) + 3/10 * min 1 (f.days_since_last_tx / 90)
        + 2/10 * (1 - f.engagement_score) + 2/10 * f.activity_decline) := by
    rw [calculate_improved_risk_components, if_neg (by simp [hact])]
    rfl
  refine ⟨heq, fun h1 h2 h3 h4 => ?_⟩
  rw [heq, h1, h2, h3, h4]
  norm_num

/-- C7 witness: the pristine active wallet (perfect success rate, activity
today, full engagement, no decline) gets liquidation risk 0. -/
theorem liquidation_risk_active_formula_witness :
    pristineActiveFeatures.is_active_wallet = true
    ∧ (calculate_improved_risk_components pristineActiveFeatures 0).liquidation_risk = 0 :=
  ⟨rfl, (liquidation_risk_active_formula pristineActiveFeatures 0 rfl).2 rfl rfl rfl rfl⟩

/-- C7 counterexample: on the extractor-produced active feature vector with
`activity_decline = -1` the source computes liquidation risk -1/5, while the
claim's "clamped to [0,1]" formula gives 0 — the two disagree, so the code's
value is not the [0,1]-clamped weighted sum. -/
theorem liquidation_risk_clamp_cex :
    cexFeatures.is_active_wallet = true
    ∧ liquidation_risk_claimed cexFeatures = 0
    ∧ (calculate_improved_risk_components cexFeatures 0).liquidation_risk
        ≠ liquidation_risk_claimed cexFeatures := by
  have hclaimed : liquidation_risk_claimed cexFeatures = 0 := by
    rw [cexFeatures_eq]
    norm_num [liquidation_risk_claimed, clamp01, min_def, max_def]
  have hcode : (calculate_improved_risk_components cexFeatures 0).liquidation_risk = -1/5 := by
    rw [cexFeatures_eq]
    norm_num [calculate_improved_risk_components, calculate_active_risk_components, min_def]
  refine ⟨rfl, hclaimed, ?_⟩
  rw [hclaimed, hcode]
  norm_num

/-- C8: the inactive-branch output is a function of the perturbation value,
not of the balance alone.  For the funded dormant wallet (5 ETH, 0
transactions) two different perturbation draws — as produced by
`np.random.seed(hash(str(eth_balance)) % 2**32)` under two different
process hash salts — give different component records and different
composite scores (377.5 versus 382.5). -/
theorem inactive_perturbation_sensitivity :
    calculate_inactive_wallet_risk dormantFeatures 0
      ≠ calculate_inactive_wallet_risk dormantFeatures (1/100)
    ∧ calculate_composite_score
        (calculate_inactive_wallet_risk dormantFeatures 0) dormantFeatures = 755/2
    ∧ calculate_composite_score
        (calculate_inactive_wallet_risk dormantFeatures (1/100)) dormantFeatures = 765/2 := by
  have h1 : calculate_inactive_wallet_risk dormantFeatures 0 =
      { liquidation_risk := 3/10, volatility_risk := 2/10, concentration_risk := 4/10,
        activity_risk := 8/10, leverage_risk := 2/10, liquidity_risk := 3/10 } := by
    norm_num [calculate_inactive_wallet_risk, inactive_base_risks, dormantFeatures,
      dormantBasic, get_inactive_wallet_features, clamp01, min_def, max_def]
  have h2 : calculate_inactive_wallet_risk dormantFeatures (1/100) =
      { liquidation_risk := 31/100, volatility_risk := 21/100, concentration_risk := 41/100,
        activity_risk := 81/100, leverage_risk := 21/100, liquidity_risk := 31/100 } := by
    norm_num [calculate_inactive_wallet_risk, inactive_base_risks, dormantFeatures,
      dormantBasic, get_inactive_wallet_features, clamp01, min_def, max_def]
  refine ⟨?_, ?_, ?_⟩
  · rw [h1, h2]
    simp only [ne_eq, RiskComponents.mk.injEq, not_and]
    intro ha
    norm_num at ha
  · rw [h1]
    norm_num [calculate_composite_score, weighted_score, dormantFeatures, dormantBasic,
      get_inactive_wallet_features, min_def, max_def]
  · rw [h2]
    norm_num [calculate_composite_score, weighted_score, dormantFeatures, dormantBasic,
      get_inactive_wallet_features, min_def, max_def]

/-- C9 (amended): on a nonempty transaction list the extractor computes
`volume_concentration = maxTxValue / max(totalVolume, 1)` — the
division-by-zero guard applies `max(·, 1)` to the denominator — so the
claimed identity `volume_concentration = maxTxValue / totalVolume` holds
exactly when the realized total volume is at least 1 ETH. -/
theorem volume_concentration_guarded (now : ℤ) (basic : BasicInfo) (txs : List Tx)
    (vstd : ℚ) (hne : txs ≠ []) :
    (extract_comprehensive_features now basic txs vstd).volume_concentration
      = maxValue txs / max (txValues txs).sum 1
    ∧ (1 ≤ (txValues txs).sum →
        (extract_comprehensive_features now basic txs vstd).volume_concentration
          = (extract_comprehensive_features now basic txs vstd).max_tx_value_eth
            / (extract_comprehensive_features now basic txs vstd).total_volume_eth) := by
  have hvc : (extract_comprehensive_features now basic txs vstd).volume_concentration
      = maxValue txs / max (txValues txs).sum 1 := by
    rw [extract_comprehensive_features, if_neg hne]
  have hmax : (extract_comprehensive_features now basic txs vstd).max_tx_value_eth
      = maxValue txs := by
    rw [extract_comprehensive_features, if_neg hne]
  have htv : (extract_comprehensive_features now basic txs vstd).total_volume_eth
      = (txValues txs).sum := by
    rw [extract_comprehensive_features, if_neg hne]
  refine ⟨hvc, fun h1 => ?_⟩
  rw [hvc, hmax, htv, max_eq_left h1]

/-- C9 witness: for the single 1-ETH transaction the realized volume is 1,
and the concentration equals maxTxValue / totalVolume as claimed. -/
theorem volume_concentration_guarded_witness :
    ([cexTx] : List Tx) ≠ []
    ∧ (1:ℚ) ≤ (txValues [cexTx]).sum
    ∧ (extract_comprehensive_features cexNow cexBasic [cexTx] 0).volume_concentration
        = (extract_comprehensive_features cexNow cexBasic [cexTx] 0).max_tx_value_eth
          / (extract_comprehensive_features cexNow cexBasic [cexTx] 0).total_volume_eth := by
  have hne : ([cexTx] : List Tx) ≠ [] := List.cons_ne_nil _ _
  have hsum : (1:ℚ) ≤ (txValues [cexTx]).sum := by
    norm_num [txValues, weiToEth, cexTx]
  exact ⟨hne, hsum, (volume_concentration_guarded cexNow cexBasic [cexTx] 0 hne).2 hsum⟩

/-- Evaluation of the extractor on one 0.5-ETH transaction: the realized
total volume 1/2 is positive but below the guard's threshold 1, so the
denominator guard is active. -/
theorem halfEthFeatures_eq : halfEthFeatures =
    { eth_balance := 1, total_tx_count := 2, is_active_wallet := true,
      analyzed_transactions := 1, successful_transactions := 1, failed_transactions := 0,
      success_rate := 1, compound_transactions := 0, defi_transactions := 0,
      compound_ratio := 0, defi_ratio := 0, total_volume_eth := 1/2, avg_tx_value_eth := 1/2,
      max_tx_value_eth := 1/2, volume_volatility := 0, large_tx_count := 0, large_tx_ratio := 0,
      days_since_first_tx := 0, days_since_last_tx := 0, avg_monthly_frequency := 30,
      recent_activity_count := 1, activity_decline := 0, wallet_maturity := 0,
      engagement_score := 0, volume_concentration := 1/2, inactive_risk_modifier := none } := by
  rw [halfEthFeatures, extract_comprehensive_features, if_neg (List.cons_ne_nil _ _)]
  norm_num [cexBasic, halfEthTx, cexNow, txValues, weiToEth, minTimestamp, maxTimestamp,
    maxValue, daysBetween, List.countP, List.countP.go, Int.fdiv, min_def, max_def]

/-- C9 counterexample: for the wallet whose only fetched transaction moved
0.5 ETH the total volume is positive (1/2), but the extracted concentration
is 1/2 while maxTxValue / totalVolume = 1 — positivity of the volume is not
enough for the claimed identity. -/
theorem volume_concentration_cex :
    0 < halfEthFeatures.total_volume_eth
    ∧ halfEthFeatures.volume_concentration = 1/2
    ∧ halfEthFeatures.max_tx_value_eth / halfEthFeatures.total_volume_eth = 1
    ∧ halfEthFeatures.volume_concentration
        ≠ halfEthFeatures.max_tx_value_eth / halfEthFeatures.total_volume_eth := by
  rw [halfEthFeatures_eq]
  norm_num

end WalletRisk
